import Mathlib

/-!
Shallow embedding of the offer-parser pipeline (src/index.ts, second variant
with `category`, and the reservation-message builder in src/unnamed/part_000).

The pipeline: a Telegram message event is filtered (watched chat, non-null
sender, ignored-sender suppression), its text is sent to an extraction oracle
(`analyzeMessageWithOpenAI`), the parsed item is checked against fixed
acceptance criteria (`doesItemMeetCriteria`), and on a match a reservation
message is sent to the sender.  Network interactions (the OpenAI chat call,
JSON parsing of its content) are modelled as explicit outcome values passed
into the embedded functions; everything else is translated directly from the
TypeScript source.
-/

namespace OfferParser

/-- The `category` enumeration of the JSON schema / `ParsedItem` type
(src/index.ts lines 246, 264-268). -/
inductive Category where
  | furniture
  | electronics
  | clothing
  | other
deriving DecidableEq, Repr

/-- `price: number | string | null` — a JS value that is either a number or a
string (the `null` case is the `Option` wrapper at the use site). -/
inductive PriceVal where
  | num (q : ℚ)
  | str (s : String)
deriving DecidableEq, Repr

/-- `ParsedItem` (src/index.ts lines 244-250): every field except `is_free`
is nullable. -/
structure ParsedItem where
  item_name : Option String
  category : Option Category
  price : Option PriceVal
  location : Option String
  is_free : Bool
deriving DecidableEq, Repr

/-- JS `String.prototype.toLowerCase` on one character, restricted to the
alphabets the acceptance criteria use (ASCII Latin and Cyrillic): `A`-`Z`
and `А`-`Я` map down by the usual offset, `Ё` maps to `ё`. -/
def jsCharToLower (c : Char) : Char :=
  if 'A' ≤ c ∧ c ≤ 'Z' then Char.ofNat (c.toNat + 32)
  else if 'А' ≤ c ∧ c ≤ 'Я' then Char.ofNat (c.toNat + 32)
  else if c = 'Ё' then 'ё'
  else c

/-- JS `s.toLowerCase()`. -/
def jsToLower (s : String) : String := ⟨s.data.map jsCharToLower⟩

/-- The whitespace characters JS `String.prototype.trim` strips (restricted
to the ASCII ones that can occur in chat text). -/
def jsIsWhitespace (c : Char) : Bool :=
  c = ' ' || c = '\t' || c = '\n' || c = '\r' || c = '\x0b' || c = '\x0c'

/-- JS `s.trim()`: strip leading and trailing whitespace. -/
def jsTrim (s : String) : String :=
  ⟨((s.data.dropWhile jsIsWhitespace).reverse.dropWhile jsIsWhitespace).reverse⟩

/-- Is `needle` a contiguous run of `hay`?  (Character-list core of JS
`String.prototype.includes`.) -/
def infixOf (needle : List Char) : List Char → Bool
  | [] => needle.isEmpty
  | c :: t => needle.isPrefixOf (c :: t) || infixOf needle t

/-- JS `s.includes(sub)`. -/
def jsIncludes (s sub : String) : Bool := infixOf sub.data s.data

/-- The hard-coded price bound of `doesItemMeetCriteria` (`price < 40`). -/
def maxPrice : ℚ := 40

/-- `priceIsRight` (src/index.ts line 355):
`(typeof price === 'number' && price < 40) || item.is_free`. -/
def priceIsRight (item : ParsedItem) : Bool :=
  (match item.price with
   | some (PriceVal.num q) => decide (q < maxPrice)
   | _ => false) || item.is_free

/-- `categoryIsRight` (src/index.ts line 358): `category === 'furniture'`. -/
def categoryIsRight (item : ParsedItem) : Bool :=
  item.category = some Category.furniture

/-- `locationIsRight` (src/index.ts lines 361-363):
`location?.toLowerCase().includes('limassol') || location?.toLowerCase().includes('лимассол')`;
a `null` location makes both optional chains `undefined`, hence falsy. -/
def locationIsRight (item : ParsedItem) : Bool :=
  match item.location with
  | none => false
  | some loc =>
      jsIncludes (jsToLower loc) "limassol" || jsIncludes (jsToLower loc) "лимассол"

/-- `nameIsRight` (src/index.ts lines 366-370): `item_name && (…includes…)`;
a `null` or empty `item_name` is falsy. -/
def nameIsRight (item : ParsedItem) : Bool :=
  match item.item_name with
  | none => false
  | some n =>
      !(n = "") &&
        (jsIncludes (jsToLower n) "tv stand" || jsIncludes (jsToLower n) "тумбочка" ||
          jsIncludes (jsToLower n) "телевизор")

/-- `doesItemMeetCriteria` (src/index.ts lines 351-375): the conjunction of
the four sub-predicates, coerced by `Boolean(...)`. -/
def doesItemMeetCriteria (item : ParsedItem) : Bool :=
  priceIsRight item && categoryIsRight item && locationIsRight item && nameIsRight item

/-! ## Structured extractor (`analyzeMessageWithOpenAI`, src/index.ts 295-344)

The body of the `try` block performs one network call and one `JSON.parse`;
its possible outcomes are modelled as an explicit value:

* `failure` — the chat-completion call throws (transport error, timeout, API
  error); control reaches the `catch`, which logs and returns `null`;
* `empty` — the call succeeds but `response.choices[0]?.message?.content` is
  absent or empty, so `if (result)` fails and the function returns `null`;
* `malformed` — content is present but `JSON.parse(result)` throws (not valid
  JSON); the exception is caught by the same `catch`, returning `null`;
* `parsed item` — content is present and parses to the record `item`, which
  is returned as-is (the code performs no shape validation beyond parsing).
-/

/-- Outcome of the oracle call plus JSON parse inside the `try` block. -/
inductive OracleOutcome where
  | failure
  | empty
  | malformed
  | parsed (item : ParsedItem)
deriving DecidableEq, Repr

/-- What one call of `analyzeMessageWithOpenAI` produced: the returned value
and whether the oracle (the chat-completion request) was issued. -/
structure ExtractRun where
  result : Option ParsedItem
  oracleCalled : Bool
deriving DecidableEq, Repr

/-- `analyzeMessageWithOpenAI` (src/index.ts lines 295-344).  The guard
`if (!messageText || !messageText.trim())` returns `null` before the request
is built; otherwise the oracle is invoked and the try/catch yields the value
described by `OracleOutcome`. -/
def analyzeMessageWithOpenAI (messageText : String) (oracle : OracleOutcome) :
    ExtractRun :=
  if messageText = "" ∨ jsTrim messageText = "" then ⟨none, false⟩
  else
    match oracle with
    | OracleOutcome.failure => ⟨none, true⟩
    | OracleOutcome.empty => ⟨none, true⟩
    | OracleOutcome.malformed => ⟨none, true⟩
    | OracleOutcome.parsed item => ⟨some item, true⟩

/-! ## Outreach composer (`buildReservationMessage`, src/unnamed/part_000) -/

/-- Outcome of the generation oracle call in `buildReservationMessage`:
either the call throws (`failure`) or it yields
`response.choices[0]?.message?.content` (`success`, possibly without
content). -/
inductive GenOutcome where
  | failure
  | success (content : Option String)
deriving DecidableEq, Repr

/-- The `details` array (src/unnamed/part_000 lines 14-31): item name in
quotes when truthy, then `for free` when `is_free` else `for <price>` when
the price is a number, then `in <location>` when truthy. -/
def detailsList (item : ParsedItem) : List String :=
  (match item.item_name with
   | some n => if n = "" then [] else ["\"" ++ n ++ "\""]
   | none => []) ++
  (if item.is_free then ["for free"]
   else
     match item.price with
     | some (PriceVal.num q) => ["for " ++ toString q]
     | _ => []) ++
  (match item.location with
   | some l => if l = "" then [] else ["in " ++ l]
   | none => [])

/-- JS `Array.prototype.join(' ')`. -/
def joinSp : List String → String
  | [] => ""
  | [x] => x
  | x :: y :: t => x ++ " " ++ joinSp (y :: t)

/-- `details.join(' ')` (src/unnamed/part_000 line 34). -/
def detailsString (item : ParsedItem) : String := joinSp (detailsList item)

/-- The deterministic fallback message (src/unnamed/part_000 line 73). -/
def fallbackMessage (item : ParsedItem) : String :=
  "Привет, увидел твое объявление (" ++ detailsString item ++
    "), все еще актуально? Готов забрать."

/-- `buildReservationMessage` (src/unnamed/part_000 lines 10-74): return the
trimmed oracle text when non-empty, otherwise (call throws, no content, or
whitespace-only content) the fallback template. -/
def buildReservationMessage (item : ParsedItem) (gen : GenOutcome) : String :=
  match gen with
  | GenOutcome.failure => fallbackMessage item
  | GenOutcome.success none => fallbackMessage item
  | GenOutcome.success (some content) =>
      if jsTrim content = "" then fallbackMessage item else jsTrim content

/-- Did the generation call fail to produce usable text (throw, missing
content, or whitespace-only content)?  These are exactly the paths of
`buildReservationMessage` that reach the fallback. -/
def genFailed : GenOutcome → Bool
  | GenOutcome.failure => true
  | GenOutcome.success none => true
  | GenOutcome.success (some content) => jsTrim content = ""

/-! ## Dispatch coordinator (`messageHandler`, src/index.ts 432-481) -/

/-- The shapes of `message.peerId` the handler recognizes
(src/index.ts lines 438-446). -/
inductive PeerId where
  | channel (channelId : ℕ)
  | chat (chatId : ℕ)
  | user (userId : ℕ)
  | other
deriving DecidableEq, Repr

/-- `BigInt('-100' + channelId.toString())`: string concatenation prepends
the digits `100`, so the value is `-(100·10^d + n)` where `d` is the digit
count of `n`. -/
def channelChatId (n : ℕ) : ℤ :=
  -(100 * 10 ^ (Nat.repr n).length + (n : ℤ))

/-- The unified chat-id normalization of src/index.ts lines 437-446; `none`
models the final `else return` for an unrecognized peer shape. -/
def resolveChatId : PeerId → Option ℤ
  | PeerId.channel n => some (channelChatId n)
  | PeerId.chat n => some (-(n : ℤ))
  | PeerId.user n => some (n : ℤ)
  | PeerId.other => none

/-- One incoming `NewMessageEvent`, reduced to the fields the handler reads. -/
structure MessageEvent where
  peerId : Option PeerId
  senderId : Option ℤ
  text : String

/-- The startup configuration the handler closes over: `chatIds`,
`ignoreUserId`, `reservationMessage` (src/index.ts lines 228-235). -/
structure Config where
  chatIds : List ℤ
  ignoreUserId : ℤ
  reservationMessage : String

/-- What one invocation of `messageHandler` did: whether it reached the call
to `analyzeMessageWithOpenAI`, and the sender a reservation message was sent
to (at most one per event). -/
structure HandlerResult where
  extractorCalled : Bool
  sendTo : Option ℤ
deriving DecidableEq, Repr

/-- `messageHandler` (src/index.ts lines 432-481).  Guards in source order:
missing `peerId`, unrecognized peer shape, chat not in the watch-list,
missing sender (note `!senderId` is also true for the BigInt `0n`), the
ignored-sender check; only then is `analyzeMessageWithOpenAI` invoked, and a
parsed item meeting the criteria triggers `sendReservationMessage` to
`senderId`.  The oracle's behaviour is passed in as a function of the text. -/
def messageHandler (cfg : Config) (oracle : String → OracleOutcome)
    (ev : MessageEvent) : HandlerResult :=
  match ev.peerId with
  | none => ⟨false, none⟩
  | some pid =>
    match resolveChatId pid with
    | none => ⟨false, none⟩
    | some chatId =>
      if ¬ chatId ∈ cfg.chatIds then ⟨false, none⟩
      else
        match ev.senderId with
        | none => ⟨false, none⟩
        | some senderId =>
          if senderId = 0 then ⟨false, none⟩
          else if senderId = cfg.ignoreUserId then ⟨false, none⟩
          else
            let run := analyzeMessageWithOpenAI ev.text (oracle ev.text)
            match run.result with
            | none => ⟨true, none⟩
            | some item =>
              if doesItemMeetCriteria item then ⟨true, some senderId⟩
              else ⟨true, none⟩

/-- A whole run: the handler is stateless (the source keeps no dispatch
record), so processing a stream of events is just processing each one; the
result collects every send attempt in order. -/
def runHandlerAll (cfg : Config) (oracle : String → OracleOutcome)
    (evs : List MessageEvent) : List ℤ :=
  evs.filterMap fun ev => (messageHandler cfg oracle ev).sendTo

/-- Modelled from the spec: "the source text indicates the item is being
given away at no cost" — per the spec's and the prompt's examples, the text
contains "free" or "даром" (the code itself never inspects the text for
this; the check exists only in the oracle prompt's instructions). -/
def indicatesFree (text : String) : Bool :=
  jsIncludes (jsToLower text) "free" || jsIncludes (jsToLower text) "даром"

/-! ## Helper lemmas -/

/-- Appending to a non-empty string yields a non-empty string. -/
lemma append_ne_empty_of_left (a b : String) (h : a.data ≠ []) : a ++ b ≠ "" := by
  intro he
  apply h
  have hd : (a ++ b).data = ([] : List Char) := by rw [he]
  rw [String.data_append] at hd
  exact (List.append_eq_nil.mp hd).1

/-- The fallback reservation message is never the empty string: it starts
with a fixed non-empty literal. -/
lemma fallbackMessage_ne_empty (item : ParsedItem) : fallbackMessage item ≠ "" := by
  unfold fallbackMessage
  apply append_ne_empty_of_left
  rw [String.data_append]
  intro hd
  exact absurd (List.append_eq_nil.mp hd).1 (by decide)

/-- Every element of a list of strings occurs contiguously in their
space-join. -/
lemma mem_joinSp_infix {l : List String} {e : String} (he : e ∈ l) :
    e.data <:+: (joinSp l).data := by
  induction l with
  | nil => cases he
  | cons x t ih =>
    cases t with
    | nil =>
      rcases List.mem_singleton.mp he with rfl
      exact List.infix_refl _
    | cons y t' =>
      rcases List.mem_cons.mp he with rfl | hmem
      · simp only [joinSp, String.data_append]
        rw [List.append_assoc]
        exact (List.prefix_append _ _).isInfix
      · refine (ih hmem).trans ?_
        simp only [joinSp, String.data_append]
        exact (List.suffix_append _ _).isInfix

end OfferParser

namespace OfferParser

/-! ## The claims -/

/-- C1 (corrected by `C1_absent_price_counterexample`): `doesItemMeetCriteria`
is the strict conjunction of the four sub-predicates and is total (never
throws); an absent `item_name`, `category` or `location` makes its
sub-predicate — and hence the whole evaluation — false; an absent `price`
makes the price sub-predicate false only when `is_free` is also false, since
`is_free = true` alone satisfies the price sub-predicate. -/
theorem C1_meetCriteria_conjunction_and_absence (item : ParsedItem) :
    doesItemMeetCriteria item =
      (priceIsRight item && categoryIsRight item && locationIsRight item &&
        nameIsRight item) ∧
    (item.item_name = none → nameIsRight item = false) ∧
    (item.category = none → categoryIsRight item = false) ∧
    (item.location = none → locationIsRight item = false) ∧
    (item.price = none → item.is_free = false →
      priceIsRight item = false ∧ doesItemMeetCriteria item = false) := by
  refine ⟨rfl, ?_, ?_, ?_, ?_⟩
  · intro h; simp [nameIsRight, h]
  · intro h; simp [categoryIsRight, h]
  · intro h; simp [locationIsRight, h]
  · intro hp hf
    have h1 : priceIsRight item = false := by simp [priceIsRight, hp, hf]
    exact ⟨h1, by simp [doesItemMeetCriteria, h1]⟩

/-- C1 counterexample: the claim says an absent (`null`) `price` makes the
price sub-predicate false and the overall result false; but for a free item
with `price = null` the price sub-predicate is true (`|| item.is_free`) and
the whole evaluation succeeds. -/
theorem C1_absent_price_counterexample :
    doesItemMeetCriteria
        ⟨some "tv stand", some Category.furniture, none, some "limassol", true⟩ = true ∧
    (⟨some "tv stand", some Category.furniture, none, some "limassol", true⟩ :
        ParsedItem).price = none ∧
    priceIsRight
        ⟨some "tv stand", some Category.furniture, none, some "limassol", true⟩ = true := by
  decide

/-- C2 (confirmed): the price sub-predicate holds iff the price is a number
strictly below the configured bound 40 or the item is free; a textual price
qualifier (a string such as "negotiable") never satisfies it. -/
theorem C2_price_predicate_iff (item : ParsedItem) :
    maxPrice = 40 ∧
    (priceIsRight item = true ↔
      ((∃ q : ℚ, item.price = some (PriceVal.num q) ∧ q < maxPrice) ∨
        item.is_free = true)) ∧
    (∀ s : String, item.price = some (PriceVal.str s) → item.is_free = false →
      priceIsRight item = false) := by
  refine ⟨rfl, ?_, ?_⟩
  · cases hf : item.is_free with
    | true => simp [priceIsRight, hf]
    | false =>
      cases hp : item.price with
      | none => simp [priceIsRight, hp, hf]
      | some pv =>
        cases pv with
        | num q => simp [priceIsRight, hp, hf, maxPrice]
        | str s => simp [priceIsRight, hp, hf]
  · intro s hp hf
    simp [priceIsRight, hp, hf]

/-- C3 counterexample: the claim says that for source text indicating a free
item the pipeline guarantees `is_free = true` and effective price 0,
enforced defensively.  The extractor in fact returns the oracle's payload
unchanged: on a text containing "даром" with an oracle response carrying
`is_free = false` and `price = 50`, the extracted item keeps `is_free =
false` and `price = 50` — the invariant is trusted from the oracle prompt,
not enforced anywhere in the code. -/
theorem C3_no_defensive_enforcement_counterexample :
    indicatesFree "Отдам даром диван" = true ∧
    (analyzeMessageWithOpenAI "Отдам даром диван"
        (OracleOutcome.parsed
          ⟨some "диван", some Category.furniture, some (PriceVal.num 50),
            some "Лимассол", false⟩)).result =
      some ⟨some "диван", some Category.furniture, some (PriceVal.num 50),
        some "Лимассол", false⟩ ∧
    (⟨some "диван", some Category.furniture, some (PriceVal.num 50),
        some "Лимассол", false⟩ : ParsedItem).is_free = false := by
  decide

/-- C3 (corrected): what the code actually guarantees — the Criteria
Evaluator treats any item with `is_free = true` as if its price were 0:
the price sub-predicate succeeds and the whole evaluation is unchanged by
replacing the literal price with 0, whatever numeric or textual price the
oracle returned.  Forcing `is_free` itself from the source text is delegated
to the oracle prompt and not enforced by the code. -/
theorem C3_is_free_price_effect (item : ParsedItem) (h : item.is_free = true) :
    priceIsRight item = true ∧
    doesItemMeetCriteria item =
      doesItemMeetCriteria { item with price := some (PriceVal.num 0) } := by
  constructor
  · simp [priceIsRight, h]
  · simp [doesItemMeetCriteria, priceIsRight, categoryIsRight, locationIsRight,
      nameIsRight, h]

/-- C3 witness: the price-0 effect at a concrete free item whose oracle
price is the textual "negotiable". -/
theorem C3_is_free_price_effect_witness :
    priceIsRight
        ⟨some "sofa", none, some (PriceVal.str "negotiable"), none, true⟩ = true ∧
    doesItemMeetCriteria
        ⟨some "sofa", none, some (PriceVal.str "negotiable"), none, true⟩ =
      doesItemMeetCriteria
        { (⟨some "sofa", none, some (PriceVal.str "negotiable"), none, true⟩ :
            ParsedItem) with price := some (PriceVal.num 0) } :=
  C3_is_free_price_effect
    ⟨some "sofa", none, some (PriceVal.str "negotiable"), none, true⟩ rfl

/-- C4 (code bug): the handler keeps no per-sender dispatch record, so a
second matching message from the same sender is *not* suppressed.  With a
watched chat `-1001`, sender `7`, and an oracle that parses the text to an
item meeting all criteria, processing the same event twice issues two send
attempts to sender 7, where the claim requires at most one per run. -/
theorem C4_duplicate_sender_sends_twice :
    runHandlerAll ⟨[-1001], 0, "Hello, I would like to reserve it."⟩
        (fun _ => OracleOutcome.parsed
          ⟨some "tv stand", some Category.furniture, some (PriceVal.num 20),
            some "limassol", false⟩)
        [⟨some (PeerId.chat 1001), some 7, "Selling tv stand, 20 eur, Limassol"⟩,
          ⟨some (PeerId.chat 1001), some 7, "Selling tv stand, 20 eur, Limassol"⟩] =
      [7, 7] := by
  decide

/-- C5 (confirmed): the extractor fails closed — whenever the oracle call
throws (transport failure, timeout), yields no content, or yields content
that `JSON.parse` cannot parse, `analyzeMessageWithOpenAI` returns `null`
(the `catch` swallows every exception, so nothing propagates and no item is
returned). -/
theorem C5_extractor_fails_closed (text : String) (oracle : OracleOutcome)
    (h : oracle = OracleOutcome.failure ∨ oracle = OracleOutcome.empty ∨
      oracle = OracleOutcome.malformed) :
    (analyzeMessageWithOpenAI text oracle).result = none := by
  rcases h with rfl | rfl | rfl <;>
    (unfold analyzeMessageWithOpenAI; split <;> rfl)

/-- C5 witness: a malformed oracle response on a concrete non-blank text
yields `null`. -/
theorem C5_extractor_fails_closed_witness :
    (analyzeMessageWithOpenAI "Selling a sofa for 30" OracleOutcome.malformed).result =
      none :=
  C5_extractor_fails_closed "Selling a sofa for 30" OracleOutcome.malformed
    (Or.inr (Or.inr rfl))

/-- C6 (confirmed): for empty or whitespace-only text the extractor returns
`null` without issuing the oracle call (the guard precedes the request). -/
theorem C6_blank_text_no_oracle (text : String) (oracle : OracleOutcome)
    (h : text = "" ∨ jsTrim text = "") :
    analyzeMessageWithOpenAI text oracle = ⟨none, false⟩ := by
  unfold analyzeMessageWithOpenAI
  rw [if_pos h]

/-- C6 witness: whitespace-only text, with an oracle that would fail if it
were reached. -/
theorem C6_blank_text_no_oracle_witness :
    analyzeMessageWithOpenAI "  \n " OracleOutcome.failure = ⟨none, false⟩ :=
  C6_blank_text_no_oracle "  \n " OracleOutcome.failure (Or.inr (by decide))

/-- C7 (code bug): the claim says an oracle response whose `item_name` is
missing with all other fields null is treated as `Absent`; the code performs
no such validation — `JSON.parse`'s record is returned as-is, so the
extractor yields the all-null item record rather than `null`. -/
theorem C7_all_null_payload_passed_through :
    (analyzeMessageWithOpenAI "привет, как дела?"
        (OracleOutcome.parsed ⟨none, none, none, none, false⟩)).result =
      some ⟨none, none, none, none, false⟩ := by
  decide

/-- C8 (confirmed): the composer always produces a non-empty outbound
message: when the generation oracle throws, returns no content, or returns
whitespace-only content, the result is exactly the deterministic fallback
template built from the same detail fragment, and that fallback is never
empty. -/
theorem C8_composer_nonempty_fallback (item : ParsedItem) (gen : GenOutcome) :
    buildReservationMessage item gen ≠ "" ∧
    (genFailed gen = true →
      buildReservationMessage item gen = fallbackMessage item) := by
  cases gen with
  | failure => exact ⟨fallbackMessage_ne_empty item, fun _ => rfl⟩
  | success content =>
    cases content with
    | none => exact ⟨fallbackMessage_ne_empty item, fun _ => rfl⟩
    | some s =>
      by_cases hs : jsTrim s = ""
      · refine ⟨?_, fun _ => ?_⟩
        · show (if jsTrim s = "" then fallbackMessage item else jsTrim s) ≠ ""
          rw [if_pos hs]
          exact fallbackMessage_ne_empty item
        · show (if jsTrim s = "" then fallbackMessage item else jsTrim s) =
            fallbackMessage item
          rw [if_pos hs]
      · refine ⟨?_, fun hg => ?_⟩
        · show (if jsTrim s = "" then fallbackMessage item else jsTrim s) ≠ ""
          rw [if_neg hs]
          exact hs
        · exact absurd (by simpa [genFailed] using hg) hs

/-- C9 (confirmed): an event whose resolved sender equals the configured
ignored-sender id never reaches the extractor: the handler returns with no
extraction call and no send, whatever the oracle would answer. -/
theorem C9_ignored_sender_short_circuit (cfg : Config)
    (oracle : String → OracleOutcome) (ev : MessageEvent)
    (h : ev.senderId = some cfg.ignoreUserId) :
    (messageHandler cfg oracle ev).extractorCalled = false ∧
    (messageHandler cfg oracle ev).sendTo = none := by
  obtain ⟨peerId, senderId, text⟩ := ev
  change senderId = some cfg.ignoreUserId at h
  subst h
  cases peerId with
  | none => exact ⟨rfl, rfl⟩
  | some pid =>
    cases hr : resolveChatId pid with
    | none => simp [messageHandler, hr]
    | some chatId =>
      by_cases hc : chatId ∈ cfg.chatIds
      · by_cases hz : cfg.ignoreUserId = 0
        · simp [messageHandler, hr, hc, hz]
        · simp [messageHandler, hr, hc, hz]
      · simp [messageHandler, hr, hc]

/-- C9 witness: watched chat 5, ignored sender 9, an oracle that would parse
the text to a fully matching item if it were consulted. -/
theorem C9_ignored_sender_short_circuit_witness :
    (messageHandler ⟨[5], 9, "reserve it"⟩
        (fun _ => OracleOutcome.parsed
          ⟨some "tv stand", some Category.furniture, some (PriceVal.num 20),
            some "limassol", false⟩)
        ⟨some (PeerId.user 5), some 9, "Selling tv stand, Limassol, 20"⟩).extractorCalled =
      false ∧
    (messageHandler ⟨[5], 9, "reserve it"⟩
        (fun _ => OracleOutcome.parsed
          ⟨some "tv stand", some Category.furniture, some (PriceVal.num 20),
            some "limassol", false⟩)
        ⟨some (PeerId.user 5), some 9, "Selling tv stand, Limassol, 20"⟩).sendTo =
      none :=
  C9_ignored_sender_short_circuit ⟨[5], 9, "reserve it"⟩
    (fun _ => OracleOutcome.parsed
      ⟨some "tv stand", some Category.furniture, some (PriceVal.num 20),
        some "limassol", false⟩)
    ⟨some (PeerId.user 5), some 9, "Selling tv stand, Limassol, 20"⟩ rfl

/-- C10 (confirmed): for a free item the detail fragment takes the `is_free`
branch, not the price branch: "for free" is one of its components (hence a
contiguous part of the joined fragment) and the component list is unchanged
by replacing the price with any value whatsoever — the fragment carries no
trace of the numeric price. -/
theorem C10_free_branch_precedence (item : ParsedItem) (h : item.is_free = true) :
    "for free" ∈ detailsList item ∧
    "for free".data <:+: (detailsString item).data ∧
    ∀ p : Option PriceVal, detailsList { item with price := p } = detailsList item := by
  have hmem : "for free" ∈ detailsList item := by
    simp [detailsList, h]
  refine ⟨hmem, mem_joinSp_infix hmem, fun p => ?_⟩
  simp [detailsList, h]

/-- C10 witness: a free item whose oracle price is the non-zero number 25. -/
theorem C10_free_branch_precedence_witness :
    "for free" ∈ detailsList ⟨some "sofa", none, some (PriceVal.num 25), some "Limassol", true⟩ ∧
    "for free".data <:+:
      (detailsString ⟨some "sofa", none, some (PriceVal.num 25), some "Limassol", true⟩).data ∧
    ∀ p : Option PriceVal,
      detailsList { (⟨some "sofa", none, some (PriceVal.num 25), some "Limassol", true⟩ :
          ParsedItem) with price := p } =
        detailsList ⟨some "sofa", none, some (PriceVal.num 25), some "Limassol", true⟩ :=
  C10_free_branch_precedence
    ⟨some "sofa", none, some (PriceVal.num 25), some "Limassol", true⟩ rfl

end OfferParser
